import Mathlib

/-
Verification of the albatroz UI CLI (src/cli.js) against its specification.

The CLI is embedded shallowly:
* JS strings are Lean strings at code-point granularity; `toLowerCase` is the
  per-code-point simple lowercase mapping (`Char.toLower`, basic latin range),
  `charAt(0)` / `slice(1)` take / drop one code point.
* The file system, the network and the external package manager are explicit
  parameters and traces: each command returns the requests issued, the files
  written, the messages printed, the prompts shown and the external commands
  executed.
* JS objects holding nested objects are modelled with an explicit heap of
  cells so that reference sharing (the `...DEFAULT_CONFIG` spread) is visible.
-/

namespace Albatroz

/-- JS `s.toLowerCase()`, per code point. -/
def jsToLowerCase (s : String) : String :=
  String.mk (s.data.map Char.toLower)

/-- JS `s.charAt(0)`: the first code point as a string, "" when empty. -/
def jsCharAt0 (s : String) : String :=
  String.mk (s.data.take 1)

/-- JS `s.slice(1)`: everything after the first code point. -/
def jsSlice1 (s : String) : String :=
  String.mk (s.data.drop 1)

/-- ASCII uppercase test (the range JS and `Char.toLower` act on). -/
def isAsciiUpper (c : Char) : Bool :=
  decide (65 ≤ c.toNat) && decide (c.toNat ≤ 90)

/-- `AVAILABLE_COMPONENTS` from cli.js line 12. -/
def AVAILABLE_COMPONENTS : List String :=
  ["alert", "avatar", "card", "toast"]

/-- `CONFIG_FILE` from cli.js line 14. -/
def CONFIG_FILE : String := "albatroz.json"

/-- The `baseUrl` field of `DEFAULT_CONFIG` (cli.js line 17). -/
def defaultBaseUrl : String :=
  "https://raw.githubusercontent.com/eugustavo/albatroz/refs/heads/main/src/components"

/-- The two boolean flags of the nested `dependencies` object: `expo` and
`lucide-react-native` (cli.js lines 18-21). -/
structure DepFlags where
  expo : Bool
  lucide : Bool
deriving DecidableEq

/-- Heap of `dependencies` objects; a reference is an index. -/
structure Heap where
  cells : List DepFlags
deriving DecidableEq

def Heap.read (h : Heap) (r : Nat) : DepFlags :=
  h.cells.getD r ⟨false, false⟩

def Heap.write (h : Heap) (r : Nat) (v : DepFlags) : Heap :=
  ⟨h.cells.set r v⟩

/-- A config object as it lives in JS memory: the `dependencies` field holds a
reference to a heap cell, not a value. -/
structure ConfigObj where
  baseUrl : String
  dependencies : Nat
deriving DecidableEq

/-- `DEFAULT_CONFIG` (cli.js lines 16-22): its `dependencies` field references
cell 0 of the module heap. -/
def DEFAULT_CONFIG : ConfigObj := ⟨defaultBaseUrl, 0⟩

/-- The module heap right after loading cli.js: one `dependencies` object,
`expo: false, lucide-react-native: false`. -/
def initialHeap : Heap := ⟨[⟨false, false⟩]⟩

/-- JS spread `\x7b ...c \x7d`: a shallow copy, field values (including object
references) are copied as they are. -/
def jsSpread (c : ConfigObj) : ConfigObj :=
  ⟨c.baseUrl, c.dependencies⟩

/-- `formatComponentName` (cli.js lines 24-27):
`name.charAt(0).toLowerCase() + name.slice(1).toLowerCase()`, with "" for a
falsy argument. -/
def formatComponentName (name : String) : String :=
  if name = "" then ""
  else jsToLowerCase (jsCharAt0 name) ++ jsToLowerCase (jsSlice1 name)

/-- Outcome of an HTTP GET as axios reports it: a 2xx response with a body, a
non-2xx response carrying its status code, or a failure with no response. -/
inductive HttpResponse where
  | ok (body : String)
  | status (code : Nat)
  | netfail (msg : String)

/-- The single URL `downloadComponent` requests:
`baseUrl + "/" + componentName.toLowerCase() + ".tsx"` (cli.js line 31). -/
def requestUrl (baseUrl componentName : String) : String :=
  baseUrl ++ "/" ++ jsToLowerCase componentName ++ ".tsx"

/-- The message axios puts on a non-2xx error. -/
def statusErrorMessage (code : Nat) : String :=
  "Request failed with status code " ++ toString code

/-- `downloadComponent` (cli.js lines 29-39): one GET; on 2xx return the body;
on a 404 response throw the dedicated error; rethrow anything else. -/
def downloadComponent (net : String → HttpResponse) (componentName baseUrl : String) :
    Except String String :=
  match net (requestUrl baseUrl componentName) with
  | .ok body => .ok body
  | .status code =>
      if code = 404 then .error "Component not found in repository"
      else .error (statusErrorMessage code)
  | .netfail msg => .error msg

/-- The host `package.json`, reduced to its two dependency maps. -/
structure PackageJson where
  dependencies : List (String × String)
  devDependencies : List (String × String)
deriving DecidableEq

/-- Merged lookup `\x7b ...dependencies, ...devDependencies \x7d[d]`: a
devDependencies entry wins over a dependencies entry with the same key. -/
def lookupDep (p : PackageJson) (d : String) : Option String :=
  match p.devDependencies.lookup d with
  | some v => some v
  | none => p.dependencies.lookup d

/-- JS truthiness of a version string: only "" is falsy. -/
def jsTruthyString (v : String) : Bool := v ≠ ""

/-- `!!dependencies[d]` over the merged maps. -/
def depTruthy (p : PackageJson) (d : String) : Bool :=
  match lookupDep p d with
  | some v => jsTruthyString v
  | none => false

/-- `checkDependency` (cli.js lines 62-70); `none` stands for a missing or
unparsable package.json (the catch branch returns false). -/
def checkDependency (pkg : Option PackageJson) (dependency : String) : Bool :=
  match pkg with
  | none => false
  | some p => depTruthy p dependency

/-- Result of `checkExpoProject`: returns normally or calls `process.exit(1)`. -/
inductive CheckResult where
  | ok
  | exit1
deriving DecidableEq

/-- `checkExpoProject` (cli.js lines 41-60): missing or unparsable
package.json, or a falsy `expo` entry in the merged dependencies, exits the
process with code 1. -/
def checkExpoProject (pkg : Option PackageJson) : CheckResult :=
  match pkg with
  | none => .exit1
  | some p => if depTruthy p "expo" then .ok else .exit1

/-- The on-disk `albatroz.json` record (values, produced by `JSON.parse` /
`JSON.stringify`). -/
structure Config where
  baseUrl : String
  dependencies : DepFlags
deriving DecidableEq

/-- Environment of one `initializeProject` run: the host manifest, the answer
inquirer would return if prompted, and whether `execSync` raises. -/
structure InitEnv where
  pkg : Option PackageJson
  pmChoice : String
  execThrows : Bool

/-- How `initializeProject` ends: `process.exit(code)` from the validator, or
a normal return of true / false. -/
inductive InitOut where
  | exited (code : Nat)
  | returned (ok : Bool)
deriving DecidableEq

/-- Result and trace of one `initializeProject` run. -/
structure InitRes where
  out : InitOut
  heap : Heap
  configFile : Option Config
  prompts : Nat
  execs : List String
deriving DecidableEq

/-- The install command table (cli.js lines 148-152). -/
def installCommand (pm : String) : String :=
  if pm = "npm" then "npm install"
  else if pm = "yarn" then "yarn add"
  else if pm = "pnpm" then "pnpm add"
  else "undefined"

/-- `initializeProject` (cli.js lines 122-169): validate the project; spread
`DEFAULT_CONFIG` (sharing its `dependencies` cell); overwrite both flags from
the manifest; prompt and run the package manager only when the icon library is
absent; write `albatroz.json` only on the success path. -/
def initializeProject (env : InitEnv) (heap : Heap) (configFile : Option Config) :
    InitRes :=
  match checkExpoProject env.pkg with
  | .exit1 => ⟨.exited 1, heap, configFile, 0, []⟩
  | .ok =>
      let config := jsSpread DEFAULT_CONFIG
      let h1 := heap.write config.dependencies
        { heap.read config.dependencies with expo := checkDependency env.pkg "expo" }
      let l := checkDependency env.pkg "lucide-react-native"
      let h2 := h1.write config.dependencies
        { h1.read config.dependencies with lucide := l }
      if l then
        ⟨.returned true, h2, some ⟨config.baseUrl, h2.read config.dependencies⟩, 0, []⟩
      else
        let cmd := installCommand env.pmChoice ++ " lucide-react-native"
        if env.execThrows then
          ⟨.returned false, h2, configFile, 1, [cmd]⟩
        else
          let h3 := h2.write config.dependencies
            { h2.read config.dependencies with lucide := true }
          ⟨.returned true, h3, some ⟨config.baseUrl, h3.read config.dependencies⟩, 1, [cmd]⟩

/-- The destination directory (cli.js line 105), relative to the project. -/
def componentDir : String := "src/components/ui"

/-- The catalog listing printed by `add` (cli.js lines 96-99). -/
def catalogListing : List String :=
  "Available components:" :: AVAILABLE_COMPONENTS.map (fun comp => "  - " ++ formatComponentName comp)

/-- Trace of one `addComponent` run: URLs requested, files written (path and
contents), messages printed, and whether the spinner succeeded. -/
structure AddTrace where
  requests : List String
  writes : List (String × String)
  printed : List String
  success : Bool
deriving DecidableEq

/-- `addComponent` (cli.js lines 88-120): reject identifiers outside the
catalog without touching network or disk; otherwise download, write the file
under `src/components/ui/`, and report; any thrown error is caught and its
message printed. -/
def addComponent (net : String → HttpResponse) (componentName : String) (config : Config) :
    AddTrace :=
  let normalizedName := jsToLowerCase componentName
  if AVAILABLE_COMPONENTS.contains normalizedName = false then
    ⟨[], [], "Component not available" :: catalogListing, false⟩
  else
    match downloadComponent net componentName config.baseUrl with
    | .ok componentContent =>
        let formattedName := formatComponentName componentName
        ⟨[requestUrl config.baseUrl componentName],
         [(componentDir ++ "/" ++ formattedName ++ ".tsx", componentContent)],
         ["Component " ++ formattedName ++ " added successfully!",
          "Location: " ++ componentDir ++ "/" ++ formattedName ++ ".tsx"],
         true⟩
    | .error msg =>
        ⟨[requestUrl config.baseUrl componentName], [],
         ["Failed to add component " ++ formatComponentName componentName,
          "Error details: " ++ msg],
         false⟩

/-- Environment of one `add` command invocation. -/
structure CmdEnv where
  pkg : Option PackageJson
  net : String → HttpResponse
  pmChoice : String
  execThrows : Bool

/-- Mutable state an `add` invocation starts from. -/
structure CmdState where
  heap : Heap
  configFile : Option Config
  files : List (String × String)

/-- Result and trace of one `add` command invocation. -/
structure CmdRes where
  heap : Heap
  configFile : Option Config
  files : List (String × String)
  exitCode : Option Nat
  requests : List String
  writes : List (String × String)
  printed : List String
  prompts : Nat
  execs : List String
  configReads : Nat

/-- The usage lines printed when `add` is called without an argument. -/
def usageListing : List String :=
  catalogListing ++ ["Usage:", "  npx @albatroz/ui add <component>"]

/-- The `add` command action (cli.js lines 186-211): validate the project;
`ensureConfig` runs the whole init flow when `albatroz.json` is missing and
the command then only asks the user to run init; otherwise read the config,
list the catalog when no name was given, else run `addComponent`. -/
def addCommand (env : CmdEnv) (component : Option String) (s : CmdState) : CmdRes :=
  match checkExpoProject env.pkg with
  | .exit1 => ⟨s.heap, s.configFile, s.files, some 1, [], [], [], 0, [], 0⟩
  | .ok =>
      match s.configFile with
      | none =>
          let r := initializeProject ⟨env.pkg, env.pmChoice, env.execThrows⟩ s.heap s.configFile
          match r.out with
          | .exited code =>
              ⟨r.heap, r.configFile, s.files, some code, [], [], [], r.prompts, r.execs, 0⟩
          | .returned _ =>
              ⟨r.heap, r.configFile, s.files, none, [], [],
               ["Please run init command first."], r.prompts, r.execs, 0⟩
      | some config =>
          match component with
          | none =>
              ⟨s.heap, s.configFile, s.files, none, [], [], usageListing, 0, [], 1⟩
          | some name =>
              if name = "" then
                ⟨s.heap, s.configFile, s.files, none, [], [], usageListing, 0, [], 1⟩
              else
                let t := addComponent env.net name config
                ⟨s.heap, s.configFile, s.files ++ t.writes, none, t.requests, t.writes,
                 t.printed, 0, [], 1⟩

/-- Concrete scenario from the spec: host manifest declaring both `expo` and
`lucide-react-native`. -/
def scenarioPkg : PackageJson :=
  ⟨[("expo", "1.0.0"), ("lucide-react-native", "2.0.0")], []⟩

/-- The body the scenario server returns for `alert`. -/
def scenarioBody : String := "export const Alert = ...;"

/-- Scenario network: 200 with `scenarioBody` on GET `<baseUrl>/alert.tsx`,
failure on anything else. -/
def scenarioNet : String → HttpResponse := fun url =>
  if url = defaultBaseUrl ++ "/alert.tsx" then .ok scenarioBody else .netfail "network error"

/-- The scenario's `init` run from a fresh process and an empty project dir. -/
def scenarioInit : InitRes :=
  initializeProject ⟨some scenarioPkg, "npm", false⟩ initialHeap none

/-- The scenario's `add alert` run after that `init`. -/
def scenarioAdd : CmdRes :=
  addCommand ⟨some scenarioPkg, scenarioNet, "npm", false⟩ (some "alert")
    ⟨scenarioInit.heap, scenarioInit.configFile, []⟩

end Albatroz

namespace Albatroz

theorem char_toNat_ofNat (n : Nat) (h : n.isValidChar) : (Char.ofNat n).toNat = n := by
  rw [Char.ofNat, dif_pos h]
  rfl

theorem char_eq_of_toNat_eq {c d : Char} (h : c.toNat = d.toNat) : c = d := by
  have h2 := congrArg Char.ofNat h
  rwa [Char.ofNat_toNat, Char.ofNat_toNat] at h2

theorem toLower_toNat (c : Char) :
    (Char.toLower c).toNat = if c.toNat ≥ 65 ∧ c.toNat ≤ 90 then c.toNat + 32 else c.toNat := by
  simp only [Char.toLower]
  by_cases h : c.toNat ≥ 65 ∧ c.toNat ≤ 90
  · rw [if_pos h, if_pos h]
    exact char_toNat_ofNat _ (Or.inl (by omega))
  · rw [if_neg h, if_neg h]

theorem toLower_toLower (c : Char) : Char.toLower (Char.toLower c) = Char.toLower c := by
  apply char_eq_of_toNat_eq
  rw [toLower_toNat (Char.toLower c), toLower_toNat c]
  split_ifs <;> omega

theorem toLower_not_upper (c : Char) : isAsciiUpper (Char.toLower c) = false := by
  simp only [isAsciiUpper, Bool.and_eq_false_iff, decide_eq_false_iff_not, toLower_toNat]
  split_ifs <;> omega

theorem map_toLower_toLower (l : List Char) :
    l.map (Char.toLower ∘ Char.toLower) = l.map Char.toLower := by
  induction l with
  | nil => rfl
  | cons a t ih => simp only [List.map_cons, Function.comp_apply, toLower_toLower, ih]

theorem formatComponentName_eq_toLower (name : String) :
    formatComponentName name = jsToLowerCase name := by
  unfold formatComponentName
  by_cases h : name = ""
  · rw [if_pos h, h]
    rfl
  · rw [if_neg h]
    unfold jsToLowerCase jsCharAt0 jsSlice1
    show String.mk _ ++ String.mk _ = _
    have happ : ∀ a b : List Char, String.mk a ++ String.mk b = String.mk (a ++ b) := by
      intro a b
      rfl
    rw [happ, ← List.map_append, List.take_append_drop]

theorem jsToLowerCase_idem (s : String) :
    jsToLowerCase (jsToLowerCase s) = jsToLowerCase s := by
  unfold jsToLowerCase
  simp only [List.map_map, map_toLower_toLower]

theorem mem_jsToLowerCase_not_upper (s : String) (c : Char) (h : c ∈ (jsToLowerCase s).data) :
    isAsciiUpper c = false := by
  unfold jsToLowerCase at h
  simp only [List.mem_map] at h
  obtain ⟨a, _, rfl⟩ := h
  exact toLower_not_upper a

theorem checkExpo_ok_of_dep (pkg : Option PackageJson)
    (h : checkDependency pkg "expo" = true) : checkExpoProject pkg = .ok := by
  cases pkg with
  | none => exact absurd h (by decide)
  | some p =>
      simp only [checkDependency] at h
      simp [checkExpoProject, h]

theorem checkExpo_exit_of_not_dep (pkg : Option PackageJson)
    (h : checkDependency pkg "expo" = false) : checkExpoProject pkg = .exit1 := by
  cases pkg with
  | none => rfl
  | some p =>
      simp only [checkDependency] at h
      simp [checkExpoProject, h]

theorem init_out_returned (env : InitEnv) (heap : Heap) (configFile : Option Config)
    (h : checkExpoProject env.pkg = .ok) :
    ∃ b, (initializeProject env heap configFile).out = .returned b := by
  unfold initializeProject
  rw [h]
  dsimp only
  split_ifs <;> exact ⟨_, rfl⟩

/-- Claim C1: for every identifier in the component catalog (its lower-cased
form is in `AVAILABLE_COMPONENTS`), `add <id>` issues exactly one HTTP GET, to
`<baseUrl>/<lowercased-id>.tsx`, and on a 200 response writes exactly one
file, at `src/components/ui/<FormattedName>.tsx`, whose contents equal the
response body byte for byte; no other request or write occurs. -/
theorem c1_add_issues_one_get_and_one_write
    (net : String → HttpResponse) (name : String) (config : Config) (body : String)
    (hcat : AVAILABLE_COMPONENTS.contains (jsToLowerCase name) = true) :
    (addComponent net name config).requests = [requestUrl config.baseUrl name] ∧
    (net (requestUrl config.baseUrl name) = .ok body →
      (addComponent net name config).writes =
        [(componentDir ++ "/" ++ formatComponentName name ++ ".tsx", body)]) := by
  unfold addComponent downloadComponent
  rw [if_neg (by rw [hcat]; simp)]
  cases hnet : net (requestUrl config.baseUrl name) with
  | ok b =>
      refine ⟨rfl, fun hb => ?_⟩
      cases hb
      rfl
  | status code =>
      refine ⟨?_, fun hb => ?_⟩
      · split <;> rfl
      · cases hb
  | netfail msg =>
      refine ⟨rfl, fun hb => ?_⟩
      cases hb

theorem c1_witness :
    (addComponent (fun _ => HttpResponse.ok "body") "alert" ⟨"http://x", false, false⟩).requests =
      [requestUrl "http://x" "alert"] ∧
    (addComponent (fun _ => HttpResponse.ok "body") "alert" ⟨"http://x", false, false⟩).writes =
      [(componentDir ++ "/" ++ formatComponentName "alert" ++ ".tsx", "body")] :=
  ⟨(c1_add_issues_one_get_and_one_write (fun _ => HttpResponse.ok "body") "alert"
      ⟨"http://x", false, false⟩ "body" (by decide)).1,
   (c1_add_issues_one_get_and_one_write (fun _ => HttpResponse.ok "body") "alert"
      ⟨"http://x", false, false⟩ "body" (by decide)).2 rfl⟩

/-- Claim C2 counterexample: in the spec's concrete scenario (manifest with
`expo` and `lucide-react-native`, `add alert` with a 200 response), the file
written is `src/components/ui/alert.tsx`; no file named
`src/components/ui/Alert.tsx` (capital A) is created, because
`formatComponentName` lower-cases the whole identifier. -/
theorem c2_counterexample :
    scenarioAdd.writes = [("src/components/ui/alert.tsx", scenarioBody)] ∧
    ¬ ∃ p ∈ scenarioAdd.writes, p.1 = "src/components/ui/Alert.tsx" := by
  exact ⟨by decide, by decide⟩

/-- Claim C2 (amended): in the concrete scenario where the host manifest
declares both `expo` and `lucide-react-native` and `add alert` receives a 200
response with body `export const Alert = ...;`, init needs no package-manager
prompt, the file created is `src/components/ui/alert.tsx` (all lower-case), it
contains exactly that body, the success message is printed, and the process
exits 0. -/
theorem c2_amended_scenario :
    scenarioInit.out = .returned true ∧
    scenarioInit.prompts = 0 ∧
    scenarioAdd.writes = [("src/components/ui/alert.tsx", scenarioBody)] ∧
    scenarioAdd.printed = ["Component alert added successfully!",
      "Location: src/components/ui/alert.tsx"] ∧
    scenarioAdd.exitCode = none := by
  refine ⟨by decide, by decide, by decide, by decide, rfl⟩

/-- Claim C3: for every identifier whose lower-cased form is not in the
catalog, `add <id>` prints the not-available message with the catalog listing,
performs no HTTP request and no file write, and returns without a non-zero
exit. -/
theorem c3_uncataloged_rejected_without_effects
    (env : CmdEnv) (name : String) (s : CmdState) (config : Config)
    (hexpo : checkExpoProject env.pkg = .ok)
    (hcfg : s.configFile = some config)
    (hname : ¬ name = "")
    (hcat : AVAILABLE_COMPONENTS.contains (jsToLowerCase name) = false) :
    (addCommand env (some name) s).requests = [] ∧
    (addCommand env (some name) s).writes = [] ∧
    (addCommand env (some name) s).exitCode = none ∧
    (addCommand env (some name) s).printed = "Component not available" :: catalogListing := by
  unfold addCommand
  rw [hexpo, hcfg]
  dsimp only
  rw [if_neg hname]
  unfold addComponent
  rw [if_pos (by rw [hcat])]
  exact ⟨rfl, rfl, rfl, rfl⟩

theorem c3_witness :
    (addCommand ⟨some ⟨[("expo", "1.0.0")], []⟩, fun _ => HttpResponse.netfail "x", "npm", false⟩
      (some "button") ⟨initialHeap, some ⟨"http://x", false, false⟩, []⟩).requests = [] ∧
    (addCommand ⟨some ⟨[("expo", "1.0.0")], []⟩, fun _ => HttpResponse.netfail "x", "npm", false⟩
      (some "button") ⟨initialHeap, some ⟨"http://x", false, false⟩, []⟩).writes = [] ∧
    (addCommand ⟨some ⟨[("expo", "1.0.0")], []⟩, fun _ => HttpResponse.netfail "x", "npm", false⟩
      (some "button") ⟨initialHeap, some ⟨"http://x", false, false⟩, []⟩).exitCode = none ∧
    (addCommand ⟨some ⟨[("expo", "1.0.0")], []⟩, fun _ => HttpResponse.netfail "x", "npm", false⟩
      (some "button") ⟨initialHeap, some ⟨"http://x", false, false⟩, []⟩).printed =
      "Component not available" :: catalogListing :=
  c3_uncataloged_rejected_without_effects
    ⟨some ⟨[("expo", "1.0.0")], []⟩, fun _ => HttpResponse.netfail "x", "npm", false⟩
    "button" ⟨initialHeap, some ⟨"http://x", false, false⟩, []⟩ ⟨"http://x", false, false⟩
    (by decide) rfl (by decide) (by decide)

/-- Claim C4: a 404 response for a cataloged identifier yields exactly the
distinct message "Component not found in repository"; any other fetch error (a
non-2xx status other than 404, or a failure with no response) propagates as a
generic error whose own message `addComponent` prints. -/
theorem c4_notfound_vs_generic_errors
    (net : String → HttpResponse) (name : String) (config : Config) :
    (net (requestUrl config.baseUrl name) = .status 404 →
      downloadComponent net name config.baseUrl = .error "Component not found in repository") ∧
    (∀ code, code ≠ 404 → net (requestUrl config.baseUrl name) = .status code →
      downloadComponent net name config.baseUrl = .error (statusErrorMessage code)) ∧
    (∀ msg, net (requestUrl config.baseUrl name) = .netfail msg →
      downloadComponent net name config.baseUrl = .error msg) ∧
    (∀ msg, downloadComponent net name config.baseUrl = .error msg →
      AVAILABLE_COMPONENTS.contains (jsToLowerCase name) = true →
      (addComponent net name config).printed =
        ["Failed to add component " ++ formatComponentName name, "Error details: " ++ msg]) := by
  refine ⟨?_, ?_, ?_, ?_⟩
  · intro h
    unfold downloadComponent
    rw [h]
    rfl
  · intro code hcode h
    unfold downloadComponent
    rw [h]
    dsimp only
    rw [if_neg hcode]
  · intro msg h
    unfold downloadComponent
    rw [h]
  · intro msg h hcat
    unfold addComponent
    rw [if_neg (by rw [hcat]; simp), h]

theorem c4_witness :
    downloadComponent (fun _ => HttpResponse.status 404) "alert" "http://x" =
      .error "Component not found in repository" ∧
    downloadComponent (fun _ => HttpResponse.status 500) "alert" "http://x" =
      .error (statusErrorMessage 500) ∧
    downloadComponent (fun _ => HttpResponse.netfail "boom") "alert" "http://x" =
      .error "boom" ∧
    (addComponent (fun _ => HttpResponse.status 404) "alert" ⟨"http://x", false, false⟩).printed =
      ["Failed to add component " ++ formatComponentName "alert",
       "Error details: " ++ "Component not found in repository"] :=
  ⟨(c4_notfound_vs_generic_errors (fun _ => HttpResponse.status 404) "alert"
      ⟨"http://x", false, false⟩).1 rfl,
   (c4_notfound_vs_generic_errors (fun _ => HttpResponse.status 500) "alert"
      ⟨"http://x", false, false⟩).2.1 500 (by decide) rfl,
   (c4_notfound_vs_generic_errors (fun _ => HttpResponse.netfail "boom") "alert"
      ⟨"http://x", false, false⟩).2.2.1 "boom" rfl,
   (c4_notfound_vs_generic_errors (fun _ => HttpResponse.status 404) "alert"
      ⟨"http://x", false, false⟩).2.2.2 "Component not found in repository"
      ((c4_notfound_vs_generic_errors (fun _ => HttpResponse.status 404) "alert"
        ⟨"http://x", false, false⟩).1 rfl) (by decide)⟩

/-- Claim C5: whenever the merged dependencies of the host manifest do not
declare `expo` (including a missing or unreadable manifest), `init` exits the
process with code 1 before any step that writes the config file: the on-disk
`albatroz.json` state and the heap are unchanged. -/
theorem c5_init_exits_before_config_write
    (env : InitEnv) (heap : Heap) (configFile : Option Config)
    (hexpo : checkDependency env.pkg "expo" = false) :
    (initializeProject env heap configFile).out = .exited 1 ∧
    (initializeProject env heap configFile).configFile = configFile ∧
    (initializeProject env heap configFile).heap = heap := by
  unfold initializeProject
  rw [checkExpo_exit_of_not_dep env.pkg hexpo]
  exact ⟨rfl, rfl, rfl⟩

theorem c5_witness :
    (initializeProject ⟨some ⟨[("react", "1.0.0")], []⟩, "npm", false⟩ initialHeap none).out =
      .exited 1 ∧
    (initializeProject ⟨some ⟨[("react", "1.0.0")], []⟩, "npm", false⟩ initialHeap
      none).configFile = none ∧
    (initializeProject ⟨some ⟨[("react", "1.0.0")], []⟩, "npm", false⟩ initialHeap none).heap =
      initialHeap :=
  c5_init_exits_before_config_write ⟨some ⟨[("react", "1.0.0")], []⟩, "npm", false⟩
    initialHeap none (by decide)

/-- Claim C6 counterexample: when the dependency is recorded as present only
in the prior config (`albatroz.json` has both flags true) but the manifest
lacks `lucide-react-native`, a second `init` run still prompts and still
invokes the package-manager install command: `initializeProject` never reads
the prior config, so "detected ... from the prior config" fails. -/
theorem c6_counterexample :
    (initializeProject ⟨some ⟨[("expo", "1.0.0")], []⟩, "npm", false⟩ initialHeap
      (some ⟨defaultBaseUrl, true, true⟩)).execs = ["npm install lucide-react-native"] ∧
    (initializeProject ⟨some ⟨[("expo", "1.0.0")], []⟩, "npm", false⟩ initialHeap
      (some ⟨defaultBaseUrl, true, true⟩)).prompts = 1 := by
  exact ⟨by decide, by decide⟩

/-- Claim C6 (amended): running `init` again is idempotent with respect to the
dependency-installation side effect whenever the dependency is already present
in the host manifest: the run invokes no package-manager install command and
shows no package-manager prompt. (The prior config is never consulted by
`init`.) -/
theorem c6_manifest_idempotent
    (env : InitEnv) (heap : Heap) (configFile : Option Config)
    (hl : checkDependency env.pkg "lucide-react-native" = true) :
    (initializeProject env heap configFile).execs = [] ∧
    (initializeProject env heap configFile).prompts = 0 := by
  unfold initializeProject
  cases hc : checkExpoProject env.pkg with
  | exit1 => exact ⟨rfl, rfl⟩
  | ok =>
      dsimp only
      rw [if_pos hl]
      exact ⟨rfl, rfl⟩

theorem c6_witness :
    (initializeProject ⟨some ⟨[("expo", "1.0.0"), ("lucide-react-native", "2.0.0")], []⟩,
      "npm", false⟩ initialHeap (some ⟨defaultBaseUrl, true, true⟩)).execs = [] ∧
    (initializeProject ⟨some ⟨[("expo", "1.0.0"), ("lucide-react-native", "2.0.0")], []⟩,
      "npm", false⟩ initialHeap (some ⟨defaultBaseUrl, true, true⟩)).prompts = 0 :=
  c6_manifest_idempotent ⟨some ⟨[("expo", "1.0.0"), ("lucide-react-native", "2.0.0")], []⟩,
    "npm", false⟩ initialHeap (some ⟨defaultBaseUrl, true, true⟩) (by decide)

/-- Claim C7: if the external install process raises during `init`, the config
record is never persisted (the write happens only on the success path, so the
on-disk `albatroz.json` state is unchanged) and `init` returns a failure
indication without terminating the process. -/
theorem c7_install_failure_keeps_config
    (env : InitEnv) (heap : Heap) (configFile : Option Config)
    (hexpo : checkExpoProject env.pkg = .ok)
    (hl : checkDependency env.pkg "lucide-react-native" = false)
    (hth : env.execThrows = true) :
    (initializeProject env heap configFile).configFile = configFile ∧
    (initializeProject env heap configFile).out = .returned false := by
  unfold initializeProject
  rw [hexpo]
  dsimp only
  rw [if_neg (by rw [hl]; simp), if_pos hth]
  exact ⟨rfl, rfl⟩

theorem c7_witness :
    (initializeProject ⟨some ⟨[("expo", "1.0.0")], []⟩, "npm", true⟩ initialHeap
      none).configFile = none ∧
    (initializeProject ⟨some ⟨[("expo", "1.0.0")], []⟩, "npm", true⟩ initialHeap none).out =
      .returned false :=
  c7_install_failure_keeps_config ⟨some ⟨[("expo", "1.0.0")], []⟩, "npm", true⟩
    initialHeap none (by decide) (by decide) rfl

/-- Claim C8: invoking `add` with no `albatroz.json` present runs the full
initialization flow as a side effect (state and side-effect traces are exactly
those of `initializeProject`), then prints "Please run init command first."
and returns normally, reading no config and issuing no request or write in
that invocation. -/
theorem c8_add_bootstraps_then_asks_rerun
    (env : CmdEnv) (component : Option String) (s : CmdState)
    (hexpo : checkDependency env.pkg "expo" = true)
    (hcfg : s.configFile = none) :
    (addCommand env component s).printed = ["Please run init command first."] ∧
    (addCommand env component s).configReads = 0 ∧
    (addCommand env component s).requests = [] ∧
    (addCommand env component s).writes = [] ∧
    (addCommand env component s).exitCode = none ∧
    (addCommand env component s).configFile =
      (initializeProject ⟨env.pkg, env.pmChoice, env.execThrows⟩ s.heap s.configFile).configFile ∧
    (addCommand env component s).heap =
      (initializeProject ⟨env.pkg, env.pmChoice, env.execThrows⟩ s.heap s.configFile).heap ∧
    (addCommand env component s).prompts =
      (initializeProject ⟨env.pkg, env.pmChoice, env.execThrows⟩ s.heap s.configFile).prompts ∧
    (addCommand env component s).execs =
      (initializeProject ⟨env.pkg, env.pmChoice, env.execThrows⟩ s.heap s.configFile).execs := by
  have hok := checkExpo_ok_of_dep env.pkg hexpo
  obtain ⟨b, hb⟩ :=
    init_out_returned ⟨env.pkg, env.pmChoice, env.execThrows⟩ s.heap none hok
  unfold addCommand
  rw [hcfg, hok]
  dsimp only
  rw [hb]
  exact ⟨rfl, rfl, rfl, rfl, rfl, rfl, rfl, rfl, rfl⟩

theorem c8_witness :
    (addCommand ⟨some ⟨[("expo", "1.0.0"), ("lucide-react-native", "2.0.0")], []⟩,
      fun _ => HttpResponse.netfail "x", "npm", false⟩ none ⟨initialHeap, none, []⟩).printed =
      ["Please run init command first."] ∧
    (addCommand ⟨some ⟨[("expo", "1.0.0"), ("lucide-react-native", "2.0.0")], []⟩,
      fun _ => HttpResponse.netfail "x", "npm", false⟩ none ⟨initialHeap, none, []⟩).configReads =
      0 ∧
    (addCommand ⟨some ⟨[("expo", "1.0.0"), ("lucide-react-native", "2.0.0")], []⟩,
      fun _ => HttpResponse.netfail "x", "npm", false⟩ none ⟨initialHeap, none, []⟩).requests =
      [] :=
  ⟨(c8_add_bootstraps_then_asks_rerun
      ⟨some ⟨[("expo", "1.0.0"), ("lucide-react-native", "2.0.0")], []⟩,
        fun _ => HttpResponse.netfail "x", "npm", false⟩ none ⟨initialHeap, none, []⟩
      (by decide) rfl).1,
   (c8_add_bootstraps_then_asks_rerun
      ⟨some ⟨[("expo", "1.0.0"), ("lucide-react-native", "2.0.0")], []⟩,
        fun _ => HttpResponse.netfail "x", "npm", false⟩ none ⟨initialHeap, none, []⟩
      (by decide) rfl).2.1,
   (c8_add_bootstraps_then_asks_rerun
      ⟨some ⟨[("expo", "1.0.0"), ("lucide-react-native", "2.0.0")], []⟩,
        fun _ => HttpResponse.netfail "x", "npm", false⟩ none ⟨initialHeap, none, []⟩
      (by decide) rfl).2.2.1⟩

/-- Claim C9 (implicit): `formatComponentName` equals the full lower-casing of
its argument (not merely first-character lower-casing), hence it is idempotent
and maps "" to ""; every character of a written component file path and of
every catalog entry displayed to the user is non-uppercase. -/
theorem c9_formatComponentName_full_lowercase
    (name : String) (net : String → HttpResponse) (config : Config)
    (w : String × String) (c : Char)
    (hw : w ∈ (addComponent net name config).writes) (hc : c ∈ w.1.data) :
    formatComponentName name = jsToLowerCase name ∧
    formatComponentName (formatComponentName name) = formatComponentName name ∧
    formatComponentName "" = "" ∧
    isAsciiUpper c = false ∧
    (∀ comp ∈ AVAILABLE_COMPONENTS, ∀ d ∈ ("  - " ++ formatComponentName comp).data,
      isAsciiUpper d = false) := by
  refine ⟨formatComponentName_eq_toLower name, ?_, by decide, ?_, by decide⟩
  · rw [formatComponentName_eq_toLower, formatComponentName_eq_toLower, jsToLowerCase_idem]
  · unfold addComponent at hw
    cases hcat : AVAILABLE_COMPONENTS.contains (jsToLowerCase name) with
    | false =>
        rw [if_pos (by rw [hcat])] at hw
        simp at hw
    | true =>
        rw [if_neg (by rw [hcat]; simp)] at hw
        cases hdl : downloadComponent net name config.baseUrl with
        | ok content =>
            rw [hdl] at hw
            dsimp only at hw
            rw [List.mem_singleton] at hw
            rw [hw] at hc
            dsimp only at hc
            simp only [String.data_append, List.mem_append] at hc
            rw [formatComponentName_eq_toLower] at hc
            rcases hc with ((h1 | h2) | h3) | h4
            · exact (by decide : ∀ d ∈ componentDir.data, isAsciiUpper d = false) c h1
            · exact (by decide : ∀ d ∈ ['/'], isAsciiUpper d = false) c h2
            · exact mem_jsToLowerCase_not_upper name c h3
            · exact (by decide : ∀ d ∈ ['.', 't', 's', 'x'], isAsciiUpper d = false) c h4
        | error msg =>
            rw [hdl] at hw
            simp at hw

theorem c9_witness :
    formatComponentName "Alert" = jsToLowerCase "Alert" ∧
    formatComponentName (formatComponentName "Alert") = formatComponentName "Alert" ∧
    isAsciiUpper 'a' = false :=
  ⟨(c9_formatComponentName_full_lowercase "Alert" (fun _ => HttpResponse.ok "B")
      ⟨"http://x", false, false⟩ ("src/components/ui/alert.tsx", "B") 'a'
      (by decide) (by decide)).1,
   (c9_formatComponentName_full_lowercase "Alert" (fun _ => HttpResponse.ok "B")
      ⟨"http://x", false, false⟩ ("src/components/ui/alert.tsx", "B") 'a'
      (by decide) (by decide)).2.1,
   (c9_formatComponentName_full_lowercase "Alert" (fun _ => HttpResponse.ok "B")
      ⟨"http://x", false, false⟩ ("src/components/ui/alert.tsx", "B") 'a'
      (by decide) (by decide)).2.2.2.1⟩

/-- Claim C10 (implicit): the spread copy of `DEFAULT_CONFIG` in
`initializeProject` shares the nested `dependencies` object (same heap
reference), so setting the flags mutates `DEFAULT_CONFIG` in place: after a
run from the fresh module heap, the cell `DEFAULT_CONFIG.dependencies` points
to no longer holds the initial flags, and a second in-process call's spread
copy starts from the previous call's flag values rather than from
`expo: false, lucide-react-native: false`. -/
theorem c10_default_config_shared_and_mutated
    (env : InitEnv) (configFile : Option Config)
    (hexpo : checkDependency env.pkg "expo" = true) :
    (jsSpread DEFAULT_CONFIG).dependencies = DEFAULT_CONFIG.dependencies ∧
    (initializeProject env initialHeap configFile).heap.read DEFAULT_CONFIG.dependencies ≠
      initialHeap.read DEFAULT_CONFIG.dependencies ∧
    (initializeProject env initialHeap configFile).heap.read
      (jsSpread DEFAULT_CONFIG).dependencies ≠ DepFlags.mk false false := by
  have hok := checkExpo_ok_of_dep env.pkg hexpo
  refine ⟨rfl, ?_, ?_⟩ <;>
  · unfold initializeProject
    rw [hok]
    dsimp only
    split_ifs <;>
      simp [Heap.read, Heap.write, initialHeap, jsSpread, DEFAULT_CONFIG, hexpo,
        DepFlags.mk.injEq]

theorem c10_witness :
    (jsSpread DEFAULT_CONFIG).dependencies = DEFAULT_CONFIG.dependencies ∧
    (initializeProject ⟨some ⟨[("expo", "1.0.0"), ("lucide-react-native", "2.0.0")], []⟩,
      "npm", false⟩ initialHeap none).heap.read DEFAULT_CONFIG.dependencies ≠
      initialHeap.read DEFAULT_CONFIG.dependencies ∧
    (initializeProject ⟨some ⟨[("expo", "1.0.0"), ("lucide-react-native", "2.0.0")], []⟩,
      "npm", false⟩ initialHeap none).heap.read (jsSpread DEFAULT_CONFIG).dependencies ≠
      DepFlags.mk false false :=
  c10_default_config_shared_and_mutated
    ⟨some ⟨[("expo", "1.0.0"), ("lucide-react-native", "2.0.0")], []⟩, "npm", false⟩
    none (by decide)

end Albatroz
